import Mathlib

/-!
Shallow embedding of the validation and edit-handler logic of the
`project-database` web application (files `web_scripts/valutils.py`,
`web_scripts/strutils.py`, `web_scripts/performeditproject.py`).

Conventions of the embedding:
* Python `(is_ok, status_messages)` tuples become `Bool × List String`.
* Python dictionaries (the contact records coming from the CGI form) become
  association lists `List (String × String)`; a `d[k]` access that can raise
  `KeyError` is modelled in the `Except String` monad.
* The database and authentication modules (`db`, `authutils`) are external
  collaborators: they are modelled as records of abstract functions, and the
  theorems quantify over them.
* Python `int(s)` is modelled by `pyParseInt` (ASCII digits, optional sign,
  surrounding ASCII whitespace, single underscores between digits; Python's
  acceptance of non-ASCII decimal digits is not modelled).
-/

/-- ASCII whitespace as recognised by Python's `str.split()` / `int()`
(space, tab, newline, carriage return, vertical tab, form feed). -/
def isPyWs (c : Char) : Bool :=
  c = ' ' || c = '\t' || c = '\n' || c = '\r' || c = '\x0b' || c = '\x0c'

/-- Number of maximal non-whitespace runs: `len(s.split())` in Python.
The flag records whether the previous character was inside a word. -/
def wordCountAux : List Char → Bool → Nat
  | [], _ => 0
  | c :: cs, inWord =>
    if isPyWs c then wordCountAux cs false
    else (if inWord then 0 else 1) + wordCountAux cs true

/-- `len(s.split())`: the number of whitespace-separated words of `s`. -/
def pyWordCount (s : String) : Nat := wordCountAux s.toList false

/-- Number of occurrences of the character `c` in `s`: `s.count(c)` for a
single-character argument. -/
def strCount (s : String) (c : Char) : Nat := (s.toList.filter (· = c)).length

/-- `strutils.is_mit_email`: the address ends in `"@mit.edu"` and contains
exactly one `@`. -/
def is_mit_email (email : String) : Bool :=
  ("@mit.edu".toList.isSuffixOf email.toList) && (strCount email '@' == 1)

/-- Modelled from the spec: `strutils.is_plain_mit_email` is called by
`valutils.validate_project_contact_addresses` but its definition is absent
from the sources under review.  The spec describes the qualifying addresses
as those of the bare form `<username>@mit.edu`, i.e. ending literally in
`@mit.edu` with exactly one `@`. -/
def is_plain_mit_email (email : String) : Bool :=
  ("@mit.edu".toList.isSuffixOf email.toList) && (strCount email '@' == 1)

/-- `strutils.html_listify`: format a list of strings as an HTML unordered
list. -/
def html_listify (items : List String) : String :=
  "<ul>\n" ++ String.join (items.map (fun item => "    <li>" ++ item ++ "</li>\n"))
    ++ "</ul>\n"

/-- Value of an ASCII digit. -/
def digitVal (c : Char) : Nat := c.toNat - 48

/-- Digit string after its first digit, allowing a single `_` between two
digits (as Python's `int` does); empty input is a complete number. -/
def pyDigitsAux : Nat → List Char → Option Nat
  | acc, [] => some acc
  | acc, [c] => if c.isDigit then some (10 * acc + digitVal c) else none
  | acc, c :: c2 :: cs =>
    if c.isDigit then pyDigitsAux (10 * acc + digitVal c) (c2 :: cs)
    else if c = '_' && c2.isDigit then pyDigitsAux (10 * acc + digitVal c2) cs
    else none

/-- Unsigned digit string: nonempty, starts with a digit, single underscores
allowed between digits. -/
def pyDigits : List Char → Option Nat
  | [] => none
  | c :: cs => if c.isDigit then pyDigitsAux (digitVal c) cs else none

/-- Strip leading and trailing (ASCII) whitespace. -/
def pyStrip (l : List Char) : List Char :=
  ((l.dropWhile isPyWs).reverse.dropWhile isPyWs).reverse

/-- Python `int(s)` on a string: `some` of the parsed value, or `none` when
`int` would raise `ValueError`. -/
def pyParseInt (s : String) : Option Int :=
  match pyStrip s.toList with
  | '+' :: rest => (pyDigits rest).map (fun n => (n : Int))
  | '-' :: rest => (pyDigits rest).map (fun n => -(n : Int))
  | rest => (pyDigits rest).map (fun n => (n : Int))

/-- Python `s.lower()` (ASCII letters; the embedding works over the string's
character list so that it evaluates in the kernel). -/
def pyLower (s : String) : String := String.mk (s.toList.map Char.toLower)

/-- Python truthiness of an optional integer (`if project_id:`):
`None` and `0` are falsy, every other integer is truthy. -/
def pyTruthyOptInt : Option Int → Bool
  | none => false
  | some v => v ≠ 0

/-- A CGI form dictionary: association list of string keys and values. -/
abbrev Dict := List (String × String)

/-- Dictionary lookup (first binding wins). -/
def dictGet : Dict → String → Option String
  | [], _ => none
  | (k, v) :: rest, key => if k = key then some v else dictGet rest key

/-- Dictionary access `d[k]`: raises `KeyError` when the key is absent. -/
def pyGetItem (d : Dict) (k : String) : Except String String :=
  match dictGet d k with
  | some v => Except.ok v
  | none => Except.error ("KeyError: " ++ k)

/-- A project role record (`{role, description}`). -/
structure Role where
  role : String
  description : String
deriving DecidableEq, Repr

/-- The project info extracted from the form.  `projectId` models the
`project_id` entry the edit handler inserts on success (absent before). -/
structure ProjectInfo where
  name : String
  description : String
  contacts : List Dict
  roles : List Role
  projectId : Option String := none
deriving DecidableEq, Repr

/-- Set the `project_id` entry of the project info
(`project_info['project_id'] = project_id`). -/
def setProjectId (info : ProjectInfo) (pid : String) : ProjectInfo :=
  ⟨info.name, info.description, info.contacts, info.roles, some pid⟩

/-- The external `db` module: `Rec` is the (otherwise unconstrained) type of
a database record returned by `get_project`. -/
structure Db (Rec : Type) where
  getProjectId : String → Option Int
  getProject : Int → List Rec
  getProjectName : String → String

/-- The external `authutils` module: the ambient Kerberos identity and the
capability checks. -/
structure Auth where
  user : String
  canAdd : String → Bool
  canEdit : String → String → Bool
  canApprove : String → Bool

/-- `valutils.validate_project_name_text`: the name must be non-empty. -/
def validate_project_name_text (name : String) : Bool × List String :=
  if 1 ≤ name.length then (true, [])
  else (false, ["Project name must be non-empty!"])

/-- `valutils.validate_project_name_available`: fails when
`db.get_project_id(name)` is truthy (the Python test `if project_id:`). -/
def validate_project_name_available {Rec : Type} (db : Db Rec) (name : String) :
    Bool × List String :=
  if pyTruthyOptInt (db.getProjectId name) then
    (false, ["A project with name \"" ++ name ++ "\" already exists!"])
  else (true, [])

/-- `valutils.validate_project_name`: non-empty text, and availability unless
the (lower-cased) name equals the previous name. -/
def validate_project_name {Rec : Type} (db : Db Rec) (name : String)
    (previous_name : Option String) : Bool × List String :=
  let (textOk, textMsgs) := validate_project_name_text name
  match previous_name with
  | some prev =>
    if pyLower name ≠ pyLower prev then
      let (availOk, availMsgs) := validate_project_name_available db name
      (textOk && availOk, textMsgs ++ availMsgs)
    else (textOk, textMsgs)
  | none =>
    let (availOk, availMsgs) := validate_project_name_available db name
    (textOk && availOk, textMsgs ++ availMsgs)

/-- `valutils.validate_project_description`: at least three words. -/
def validate_project_description (description : String) : Bool × List String :=
  if 3 ≤ pyWordCount description then (true, [])
  else (false, ["Project description must have at least three words!"])

/-- `valutils.validate_project_contacts_nonempty`. -/
def validate_project_contacts_nonempty (contacts : List Dict) :
    Bool × List String :=
  if 1 ≤ contacts.length then (true, [])
  else (false, ["There must be at least one contact!"])

/-- The loop of `validate_project_contact_addresses`: threads
`(is_ok, status_messages, contains_plain_mit)`; each iteration reads
`contact['email']` (a possible `KeyError`). -/
def contactLoop : List Dict → Bool → List String → Bool →
    Except String (Bool × List String × Bool)
  | [], ok, msgs, plain => Except.ok (ok, msgs, plain)
  | c :: cs, ok, msgs, plain => do
    let email ← pyGetItem c "email"
    let (ok, msgs) :=
      if is_mit_email email then (ok, msgs)
      else (false, msgs ++ ["\"" ++ email ++ "\" is not an mit.edu email address!"])
    let plain := if is_plain_mit_email email then true else plain
    contactLoop cs ok msgs plain

/-- Message requiring one plainly-addressed contact, as in the source. -/
def plainMitMsg : String :=
  "At least one contact must have an email address of the form " ++
  "\"<username>@mit.edu\" (otherwise no contacts will be able to edit " ++
  "project info)."

/-- `valutils.validate_project_contact_addresses`. -/
def validate_project_contact_addresses (contacts : List Dict) :
    Except String (Bool × List String) := do
  let (ok, msgs, plain) ← contactLoop contacts true [] false
  if plain then Except.ok (ok, msgs)
  else Except.ok (false, msgs ++ [plainMitMsg])

/-- `valutils.validate_project_contacts`: non-emptiness, then (only when
non-empty) the address check. -/
def validate_project_contacts (contacts : List Dict) :
    Except String (Bool × List String) := do
  let (neOk, neMsgs) := validate_project_contacts_nonempty contacts
  if neOk then do
    let (aOk, aMsgs) ← validate_project_contact_addresses contacts
    Except.ok (neOk && aOk, neMsgs ++ aMsgs)
  else Except.ok (neOk, neMsgs)

/-- `valutils.validate_project_roles`: the source loop stops at the first
role with an empty name or description, yielding this single message. -/
def validate_project_roles : List Role → Bool × List String
  | [] => (true, [])
  | r :: rest =>
    if r.role.length = 0 || r.description.length = 0 then
      (false, ["Each role must have a name and a description!"])
    else validate_project_roles rest

/-- `valutils.validate_project_info`: name, description, contacts and roles
checks; overall validity is their conjunction, messages concatenated in
check order. -/
def validate_project_info {Rec : Type} (db : Db Rec) (info : ProjectInfo)
    (previous_name : Option String) : Except String (Bool × List String) := do
  let (nOk, nMsgs) := validate_project_name db info.name previous_name
  let (dOk, dMsgs) := validate_project_description info.description
  let (cOk, cMsgs) ← validate_project_contacts info.contacts
  let (rOk, rMsgs) := validate_project_roles info.roles
  Except.ok (nOk && dOk && cOk && rOk, nMsgs ++ dMsgs ++ cMsgs ++ rMsgs)

/-- `valutils.validate_edit_permission`. -/
def validate_edit_permission (auth : Auth) (project_id : String) :
    Bool × List String :=
  if auth.canEdit auth.user project_id then (true, [])
  else (false, ["User is not authorized to edit this project!"])

/-- `valutils.validate_edit_project`: permission, then full project info with
the project's current name as the previous name. -/
def validate_edit_project {Rec : Type} (auth : Auth) (db : Db Rec)
    (info : ProjectInfo) (project_id : String) :
    Except String (Bool × List String) := do
  let (pOk, pMsgs) := validate_edit_permission auth project_id
  let previous_name := db.getProjectName project_id
  let (iOk, iMsgs) ← validate_project_info db info (some previous_name)
  Except.ok (pOk && iOk, pMsgs ++ iMsgs)

/-- `valutils.validate_approval_permission`. -/
def validate_approval_permission (auth : Auth) : Bool × List String :=
  if auth.canApprove auth.user then (true, [])
  else (false, ["User is not authorized to approve projects!"])

/-- `valutils.validate_approval_action`: membership in
`['approved', 'rejected']`. -/
def validate_approval_action (approval_action : String) : Bool × List String :=
  if approval_action = "approved" || approval_action = "rejected" then
    (true, [])
  else (false, ["\"" ++ approval_action ++ "\" is not a valid approval action!"])

/-- `valutils.validate_approval_comments`: when rejecting, the comments must
have at least three words; otherwise always passes. -/
def validate_approval_comments (approval_action approver_comments : String) :
    Bool × List String :=
  let isOk :=
    if approval_action = "rejected" then decide (3 ≤ pyWordCount approver_comments)
    else true
  if isOk then (true, [])
  else
    (false,
     ["Comments must have at least three words when rejecting a project!"])

/-- `valutils.validate_approve_project`.  The source computes
`validate_approval_action(approval_action)` into `action_ok, action_msgs`
but never folds either into `is_ok` or `status_messages`; the embedding
mirrors that: the action check does not contribute to the result. -/
def validate_approve_project {Rec : Type} (auth : Auth) (db : Db Rec)
    (info : ProjectInfo) (project_id : String)
    (approval_action approver_comments : String) :
    Except String (Bool × List String) := do
  let (pOk, pMsgs) := validate_approval_permission auth
  let previous_name := db.getProjectName project_id
  let (iOk, iMsgs) ← validate_project_info db info (some previous_name)
  let (_actionOk, _actionMsgs) := validate_approval_action approval_action
  let (cOk, cMsgs) := validate_approval_comments approval_action approver_comments
  Except.ok (pOk && iOk && cOk, pMsgs ++ iMsgs ++ cMsgs)

/-- The distinct malformed-id message of `validate_project_id_is_int`. -/
def invalidIdMsg (project_id : String) : String :=
  "\"" ++ project_id ++ "\" is not a valid project ID!"

/-- `valutils.validate_project_id_is_int`: `int(project_id)` with the
`ValueError` caught and turned into a message. -/
def validate_project_id_is_int (project_id : String) : Bool × List String :=
  match pyParseInt project_id with
  | none => (false, [invalidIdMsg project_id])
  | some _ => (true, [])

/-- `valutils.validate_project_id_exists`: `int(project_id)` here is not
guarded, so an unparseable id raises (`Except.error`); otherwise the number
of records `db.get_project` returns must be exactly one. -/
def validate_project_id_exists {Rec : Type} (db : Db Rec)
    (project_id : String) : Except String (Bool × List String) :=
  match pyParseInt project_id with
  | none => Except.error "ValueError: invalid literal for int()"
  | some k =>
    let records := db.getProject k
    if records.length = 0 then
      Except.ok (false, ["There is no project with id \"" ++ toString k ++ "\"!"])
    else if records.length = 1 then Except.ok (true, [])
    else
      Except.ok (false,
        ["There are " ++ toString records.length ++ " projects with id \"" ++
         toString k ++ "\"!"])

/-- `valutils.validate_project_id`: the int check, then (only when it
passed) the existence check. -/
def validate_project_id {Rec : Type} (db : Db Rec) (project_id : String) :
    Except String (Bool × List String) := do
  let (isInt, intMsgs) := validate_project_id_is_int project_id
  if isInt then do
    let (exOk, exMsgs) ← validate_project_id_exists db project_id
    Except.ok (isInt && exOk, intMsgs ++ exMsgs)
  else Except.ok (isInt, intMsgs)

/-- A rendered response page: the constructor arguments are what the
(unspecified) `performutils` formatters receive. -/
inductive Page
  | success (info : ProjectInfo) (title : String)
  | failure (body : String) (title : String)
deriving DecidableEq, Repr

/-- Header line prepended to the traceback when `update_project` raises. -/
def updateFailedHeader : String :=
  "update_project failed with the following exception:\n"

/-- `performeditproject.main`, parametrised by the outcome of the
`update_project` call (`Except.error tb` models an exception whose
formatted traceback is `tb`).  The returned `Bool` records whether the
update step was attempted; exceptions escaping the validators propagate,
those of `update_project` are caught. -/
def mainEdit {Rec : Type} (auth : Auth) (db : Db Rec) (info : ProjectInfo)
    (project_id : String) (updateResult : Except String Unit) :
    Except String (Bool × Page) := do
  let (idOk, idMsgs) ← validate_project_id db project_id
  let (isOk, statusMessages) ←
    if idOk then validate_edit_project auth db info project_id
    else Except.ok (idOk, idMsgs)
  if isOk then
    match updateResult with
    | Except.ok _ =>
      Except.ok (true, Page.success (setProjectId info project_id) "Edit Project")
    | Except.error tb =>
      Except.ok (true,
        Page.failure (html_listify [updateFailedHeader ++ tb]) "Edit Project")
  else
    Except.ok (false, Page.failure (html_listify statusMessages) "Edit Project")

/-- Reduction of the `Except` bind on a success value, used to unfold the
embedded `do` blocks. -/
theorem except_ok_bind {ε α β : Type} (a : α) (f : α → Except ε β) :
    (Except.ok (ε := ε) a >>= f) = f a := rfl

/-- Fixture: a database with no projects at all. -/
def dbEmpty : Db Unit := ⟨fun _ => none, fun _ => [], fun _ => "Foo"⟩

/-- Fixture: a database whose name lookup always returns the id `0`. -/
def dbZero : Db Unit := ⟨fun _ => some 0, fun _ => [], fun _ => ""⟩

/-- Fixture: a database whose name lookup always returns the id `5`. -/
def dbTaken : Db Unit := ⟨fun _ => some 5, fun _ => [], fun _ => ""⟩

/-- Fixture: a database with one record for id `7` and two for id `8`. -/
def dbDup : Db Unit :=
  ⟨fun _ => none, fun k => if k = 7 then [()] else if k = 8 then [(), ()] else [],
   fun _ => "Foo"⟩

/-- Fixture: a database with exactly one record for id `1`, whose name
lookup returns `"Foo"`. -/
def dbOne : Db Unit :=
  ⟨fun _ => none, fun k => if k = 1 then [()] else [], fun _ => "Foo"⟩

/-- Fixture: an authentication state granting every capability. -/
def authAll : Auth := ⟨"approver", fun _ => true, fun _ _ => true, fun _ => true⟩

/-- Fixture: a fully valid project info record whose name matches the
stored name `"Foo"` of the fixture databases. -/
def infoFoo : ProjectInfo :=
  ⟨"Foo", "a fine project", [[("email", "alice@mit.edu")]], [], none⟩

/-- C6: for the empty contact list, `validate_project_contacts` returns
`is_ok = False` with exactly the single message
"There must be at least one contact!"; in particular the contact-address
sub-check contributes nothing (had it run on the empty list, it would have
appended its "at least one contact must have ..." message). -/
theorem validate_project_contacts_empty :
    validate_project_contacts ([] : List Dict) =
      Except.ok (false, ["There must be at least one contact!"]) := rfl

/-- C1: `validate_approve_project` accepts an invalid approval action.  At a
fully valid project info, authorized approver and existing project, the
action `"banana"` is rejected by `validate_approval_action`, yet
`validate_approve_project` returns `is_ok = True` with no messages, because
the source computes `action_ok, action_msgs` and never folds them into its
result.  The spec requires the approval validation to fail here. -/
theorem validate_approve_project_ignores_invalid_action :
    validate_approval_action "banana" =
      (false, ["\"banana\" is not a valid approval action!"]) ∧
    validate_approve_project authAll dbEmpty infoFoo "1" "banana" "" =
      Except.ok (true, []) := ⟨rfl, rfl⟩

/-- C5 counterexample: with a database whose `get_project_id` returns the
existing id `0` (not `None`), `validate_project_name_available` still
passes, because the source tests Python truthiness (`if project_id:`) and
`0` is falsy.  This refutes the claimed "fails iff `get_project_id`
returns an id rather than `None`". -/
theorem validate_project_name_available_id_zero_cex :
    ¬ (((validate_project_name_available dbZero "Foo").1 = false) ↔
        dbZero.getProjectId "Foo" ≠ none) := by decide

/-- C5 (amended): `validate_project_name_available` fails, with the single
message about the name already existing, iff `db.get_project_id(name)`
returns a truthy id, i.e. an id other than `None` and other than `0`;
otherwise (no id, or the falsy id `0`) it passes with no messages. -/
theorem validate_project_name_available_spec {Rec : Type} (db : Db Rec)
    (name : String) :
    (validate_project_name_available db name =
        (false, ["A project with name \"" ++ name ++ "\" already exists!"]) ↔
      ∃ k, db.getProjectId name = some k ∧ k ≠ 0) ∧
    (validate_project_name_available db name = (true, []) ↔
      (db.getProjectId name = none ∨ db.getProjectId name = some 0)) := by
  cases h : db.getProjectId name with
  | none => simp [validate_project_name_available, pyTruthyOptInt, h]
  | some v =>
    by_cases hv : v = 0 <;>
      simp [validate_project_name_available, pyTruthyOptInt, h, hv]

/-- Witness for C5 (amended): under `dbTaken` the lookup returns id `5`, so
the check fails with the expected message. -/
theorem validate_project_name_available_spec_witness :
    validate_project_name_available dbTaken "Foo" =
      (false, ["A project with name \"Foo\" already exists!"]) :=
  (validate_project_name_available_spec dbTaken "Foo").1.mpr
    ⟨5, rfl, by decide⟩

/-- C7: when rejecting, `validate_approval_comments` fails iff the comment
has fewer than three whitespace-separated words and passes iff it has at
least three; for any other action it passes with no messages. -/
theorem validate_approval_comments_spec (action comments : String) :
    (action = "rejected" →
      (((validate_approval_comments action comments).1 = false) ↔
        pyWordCount comments < 3) ∧
      (((validate_approval_comments action comments).1 = true) ↔
        3 ≤ pyWordCount comments)) ∧
    (action ≠ "rejected" →
      validate_approval_comments action comments = (true, [])) := by
  constructor
  · intro h
    subst h
    by_cases h3 : 3 ≤ pyWordCount comments <;>
      exact ⟨by simp [validate_approval_comments, h3]; try omega,
             by simp [validate_approval_comments, h3]; try omega⟩
  · intro h
    simp [validate_approval_comments, h]

/-- Witness for C7: a two-word rejection comment fails, a three-word one
passes, and approving with an empty comment passes. -/
theorem validate_approval_comments_spec_witness :
    (validate_approval_comments "rejected" "too short").1 = false ∧
    (validate_approval_comments "rejected" "three word comment").1 = true ∧
    validate_approval_comments "approved" "" = (true, []) :=
  ⟨((validate_approval_comments_spec "rejected" "too short").1 rfl).1.mpr
      (by decide),
   ((validate_approval_comments_spec "rejected" "three word comment").1
      rfl).2.mpr (by decide),
   (validate_approval_comments_spec "approved" "").2 (by decide)⟩

/-- C8: when the project-id string does not parse as an integer,
`validate_project_id_is_int` — and hence `validate_project_id` — returns
`is_ok = False` with exactly the distinct malformed-id message (the
`ValueError` is caught, never propagated: the result is an ordinary
`Except.ok`); when the string does parse, `validate_project_id_is_int`
returns `is_ok = True` with no messages. -/
theorem validate_project_id_is_int_spec {Rec : Type} (db : Db Rec)
    (s : String) :
    (pyParseInt s = none →
      validate_project_id_is_int s = (false, [invalidIdMsg s]) ∧
      validate_project_id db s = Except.ok (false, [invalidIdMsg s])) ∧
    (∀ k : Int, pyParseInt s = some k →
      validate_project_id_is_int s = (true, [])) := by
  constructor
  · intro h
    constructor
    · simp [validate_project_id_is_int, h]
    · simp [validate_project_id, validate_project_id_is_int, h]
  · intro k h
    simp [validate_project_id_is_int, h]

/-- Witness for C8: `"abc"` is rejected with the malformed-id message by
both validators, `"42"` is accepted by the int check. -/
theorem validate_project_id_is_int_spec_witness :
    validate_project_id_is_int "abc" = (false, [invalidIdMsg "abc"]) ∧
    validate_project_id dbEmpty "abc" = Except.ok (false, [invalidIdMsg "abc"]) ∧
    validate_project_id_is_int "42" = (true, []) :=
  ⟨((validate_project_id_is_int_spec dbEmpty "abc").1 (by decide)).1,
   ((validate_project_id_is_int_spec dbEmpty "abc").1 (by decide)).2,
   (validate_project_id_is_int_spec dbEmpty "42").2 42 (by decide)⟩

/-- C10: `validate_project_id` passes iff the string parses as an integer
and `db.get_project` returns exactly one record for it; with two or more
records it fails with the distinct "There are n projects" message; with an
unparseable string the existence check is skipped and exactly the one
parse-failure message is returned. -/
theorem validate_project_id_spec {Rec : Type} (db : Db Rec) (s : String) :
    ((∃ msgs, validate_project_id db s = Except.ok (true, msgs)) ↔
      (∃ k, pyParseInt s = some k ∧ (db.getProject k).length = 1)) ∧
    (∀ k : Int, pyParseInt s = some k → 2 ≤ (db.getProject k).length →
      validate_project_id db s = Except.ok (false,
        ["There are " ++ toString (db.getProject k).length ++
         " projects with id \"" ++ toString k ++ "\"!"])) ∧
    (pyParseInt s = none →
      validate_project_id db s = Except.ok (false, [invalidIdMsg s])) := by
  cases h : pyParseInt s with
  | none =>
    refine ⟨?_, ?_, ?_⟩
    · simp [validate_project_id, validate_project_id_is_int, h]
    · intro k hk
      simp [h] at hk
    · intro _
      simp [validate_project_id, validate_project_id_is_int, h]
  | some k =>
    refine ⟨?_, ?_, ?_⟩
    · by_cases h0 : (db.getProject k).length = 0
      · simp [validate_project_id, validate_project_id_is_int,
          validate_project_id_exists, h, h0, except_ok_bind]
      · by_cases h1 : (db.getProject k).length = 1
        · simp [validate_project_id, validate_project_id_is_int,
            validate_project_id_exists, h, h0, h1, except_ok_bind]
        · simp [validate_project_id, validate_project_id_is_int,
            validate_project_id_exists, h, h0, h1, except_ok_bind]
    · intro k2 hk2 hge
      have hkk : k2 = k := (Option.some.inj hk2).symm
      subst hkk
      have h0 : ¬ (db.getProject k2).length = 0 := by omega
      have h1 : ¬ (db.getProject k2).length = 1 := by omega
      simp [validate_project_id, validate_project_id_is_int,
        validate_project_id_exists, h, h0, h1, except_ok_bind]
    · intro hn
      exact absurd hn (by simp)

/-- Witness for C10: under `dbDup`, id `"7"` (one record) passes, id `"8"`
(two records) fails with the duplicate-id message, and `"x"` fails with
the parse message. -/
theorem validate_project_id_spec_witness :
    (∃ msgs, validate_project_id dbDup "7" = Except.ok (true, msgs)) ∧
    validate_project_id dbDup "8" = Except.ok (false,
      ["There are " ++ toString (dbDup.getProject 8).length ++
       " projects with id \"" ++ toString (8 : Int) ++ "\"!"]) ∧
    validate_project_id dbDup "x" = Except.ok (false, [invalidIdMsg "x"]) :=
  ⟨(validate_project_id_spec dbDup "7").1.mpr ⟨7, rfl, rfl⟩,
   (validate_project_id_spec dbDup "8").2.1 8 rfl (by decide),
   (validate_project_id_spec dbDup "x").2.2 (by decide)⟩

/-- C4: when the proposed name equals the previous name up to case,
`validate_project_name` skips the availability lookup entirely: it
coincides with the pure text check, is independent of the database state,
and passes whenever the name is non-empty. -/
theorem validate_project_name_unchanged {Rec Rec2 : Type} (db : Db Rec)
    (db2 : Db Rec2) (name prev : String)
    (h : pyLower name = pyLower prev) :
    validate_project_name db name (some prev) =
      validate_project_name_text name ∧
    validate_project_name db name (some prev) =
      validate_project_name db2 name (some prev) ∧
    (name ≠ "" → (validate_project_name db name (some prev)).1 = true) := by
  have heq : validate_project_name db name (some prev) =
      validate_project_name_text name := by
    cases hv : validate_project_name_text name with
    | mk tOk tMsgs => simp [validate_project_name, hv, h]
  have heq2 : validate_project_name db2 name (some prev) =
      validate_project_name_text name := by
    cases hv : validate_project_name_text name with
    | mk tOk tMsgs => simp [validate_project_name, hv, h]
  refine ⟨heq, heq2 ▸ heq, ?_⟩
  intro hne
  rw [heq]
  have hlen : 1 ≤ name.length := by
    cases hn : name.toList with
    | nil =>
      exact absurd (by cases name with
        | mk data => simp at hn; simp [hn]) hne
    | cons c cs =>
      have hl : name.length = (c :: cs).length := by
        rw [← hn]
        rfl
      simp [hl]
  simp [validate_project_name_text, hlen]

/-- Witness for C4: under a database in which every name is taken, editing
with the case-changed previous name `"foo"` still passes for `"Foo"`. -/
theorem validate_project_name_unchanged_witness :
    validate_project_name dbTaken "Foo" (some "foo") = (true, []) :=
  ((validate_project_name_unchanged dbTaken dbTaken "Foo" "foo" rfl).1).trans
    rfl

/-- One step of the contact loop when the contact's `email` key is present. -/
theorem contactLoop_cons (c : Dict) (cs : List Dict) (ok : Bool)
    (msgs : List String) (plain : Bool) (e : String)
    (he : dictGet c "email" = some e) :
    contactLoop (c :: cs) ok msgs plain =
      contactLoop cs
        (if is_mit_email e then ok else false)
        (if is_mit_email e then msgs
         else msgs ++ ["\"" ++ e ++ "\" is not an mit.edu email address!"])
        (if is_plain_mit_email e then true else plain) := by
  by_cases hm : is_mit_email e <;> by_cases hp : is_plain_mit_email e <;>
    simp [contactLoop, pyGetItem, he, hm, hp, except_ok_bind]

/-- The contact loop succeeds whenever every contact has an `email` key. -/
theorem contactLoop_total (cs : List Dict)
    (h : ∀ c ∈ cs, (dictGet c "email").isSome = true) :
    ∀ ok msgs plain, ∃ r, contactLoop cs ok msgs plain = Except.ok r := by
  induction cs with
  | nil =>
    intro ok msgs plain
    exact ⟨(ok, msgs, plain), rfl⟩
  | cons c cs ih =>
    intro ok msgs plain
    obtain ⟨e, he⟩ := Option.isSome_iff_exists.mp (h c (List.mem_cons_self c cs))
    obtain ⟨r, hr⟩ := ih (fun c2 hc2 => h c2 (List.mem_cons_of_mem c hc2))
      (if is_mit_email e then ok else false)
      (if is_mit_email e then msgs
       else msgs ++ ["\"" ++ e ++ "\" is not an mit.edu email address!"])
      (if is_plain_mit_email e then true else plain)
    exact ⟨r, by rw [contactLoop_cons c cs ok msgs plain e he]; exact hr⟩

/-- The contact loop keeps `contains_plain_mit = false` when no contact has
a plain `<username>@mit.edu` address. -/
theorem contactLoop_no_plain (cs : List Dict)
    (h : ∀ c ∈ cs, ∃ e, dictGet c "email" = some e ∧
      is_plain_mit_email e = false) :
    ∀ ok msgs, ∃ ok2 msgs2,
      contactLoop cs ok msgs false = Except.ok (ok2, msgs2, false) := by
  induction cs with
  | nil =>
    intro ok msgs
    exact ⟨ok, msgs, rfl⟩
  | cons c cs ih =>
    intro ok msgs
    obtain ⟨e, he, hp⟩ := h c (List.mem_cons_self c cs)
    rw [contactLoop_cons c cs ok msgs false e he]
    simp only [hp, Bool.false_eq_true, if_false]
    exact ih (fun c2 hc2 => h c2 (List.mem_cons_of_mem c hc2)) _ _

/-- C3: for every non-empty contact list in which no contact has an email of
the bare `<username>@mit.edu` form, `validate_project_contact_addresses`
fails and its messages include the "at least one contact must have an email
address of the form ..." message — regardless of what the individual
addresses look like (in particular for department aliases ending in the
institutional domain). -/
theorem validate_contact_addresses_requires_plain (contacts : List Dict)
    (_hne : contacts ≠ [])
    (h : ∀ c ∈ contacts, ∃ e, dictGet c "email" = some e ∧
      is_plain_mit_email e = false) :
    ∃ msgs, validate_project_contact_addresses contacts =
      Except.ok (false, msgs) ∧ plainMitMsg ∈ msgs := by
  obtain ⟨ok2, msgs2, hloop⟩ := contactLoop_no_plain contacts h true []
  refine ⟨msgs2 ++ [plainMitMsg], ?_, by simp⟩
  simp [validate_project_contact_addresses, hloop, except_ok_bind]

/-- Witness for C3: a single contact whose address ends in the
institutional domain but is not of the bare form. -/
theorem validate_contact_addresses_requires_plain_witness :
    ∃ msgs, validate_project_contact_addresses [[("email", "x@dept.mit.edu")]] =
      Except.ok (false, msgs) ∧ plainMitMsg ∈ msgs :=
  validate_contact_addresses_requires_plain [[("email", "x@dept.mit.edu")]]
    (by decide)
    (by
      intro c hc
      simp only [List.mem_singleton] at hc
      subst hc
      exact ⟨"x@dept.mit.edu", rfl, by decide⟩)

/-- C2: for every contact list in which each contact carries an `email`
entry, the contact validators are total: `validate_project_contact_addresses`
and `validate_project_contacts` both return an ordinary
`(is_ok, status_messages)` result (`Except.ok`), never an exception. -/
theorem validate_project_contacts_total (contacts : List Dict)
    (h : ∀ c ∈ contacts, (dictGet c "email").isSome = true) :
    (∃ r, validate_project_contact_addresses contacts = Except.ok r) ∧
    (∃ r, validate_project_contacts contacts = Except.ok r) := by
  obtain ⟨⟨ok2, msgs2, plain2⟩, hloop⟩ := contactLoop_total contacts h true [] false
  have haddr : ∃ r, validate_project_contact_addresses contacts = Except.ok r := by
    by_cases hp : plain2 = true
    · refine ⟨(ok2, msgs2), ?_⟩
      simp [validate_project_contact_addresses, hloop, hp, except_ok_bind]
    · refine ⟨(false, msgs2 ++ [plainMitMsg]), ?_⟩
      simp [validate_project_contact_addresses, hloop, hp, except_ok_bind]
  refine ⟨haddr, ?_⟩
  obtain ⟨⟨aOk, aMsgs⟩, ha⟩ := haddr
  cases contacts with
  | nil => exact ⟨(false, ["There must be at least one contact!"]), rfl⟩
  | cons c cs =>
    refine ⟨(aOk, aMsgs), ?_⟩
    simp [validate_project_contacts, validate_project_contacts_nonempty, ha,
      except_ok_bind]

/-- Witness for C2: a contact whose address is not even an email still
yields an ordinary result. -/
theorem validate_project_contacts_total_witness :
    (∃ r, validate_project_contact_addresses [[("email", "not-an-email")]] =
      Except.ok r) ∧
    (∃ r, validate_project_contacts [[("email", "not-an-email")]] =
      Except.ok r) :=
  validate_project_contacts_total [[("email", "not-an-email")]] (by decide)

/-- C9: control flow of the edit handler `performeditproject.main`.  The
update step runs only when the id validation and then the edit validation
both pass; with a failed validation nothing is updated and the failure page
lists the validation's messages; when the update step itself fails, the
exception is caught, its traceback becomes the single message of the
failure page, and the handler still returns normally. -/
theorem mainEdit_spec {Rec : Type} (auth : Auth) (db : Db Rec)
    (info : ProjectInfo) (pid : String) (upd : Except String Unit) :
    (∀ msgs0, validate_project_id db pid = Except.ok (false, msgs0) →
      mainEdit auth db info pid upd =
        Except.ok (false, Page.failure (html_listify msgs0) "Edit Project")) ∧
    (∀ msgs0 msgs1,
      validate_project_id db pid = Except.ok (true, msgs0) →
      validate_edit_project auth db info pid = Except.ok (false, msgs1) →
      mainEdit auth db info pid upd =
        Except.ok (false, Page.failure (html_listify msgs1) "Edit Project")) ∧
    (∀ msgs0 msgs1,
      validate_project_id db pid = Except.ok (true, msgs0) →
      validate_edit_project auth db info pid = Except.ok (true, msgs1) →
      upd = Except.ok () →
      mainEdit auth db info pid upd =
        Except.ok (true, Page.success (setProjectId info pid) "Edit Project")) ∧
    (∀ msgs0 msgs1 tb,
      validate_project_id db pid = Except.ok (true, msgs0) →
      validate_edit_project auth db info pid = Except.ok (true, msgs1) →
      upd = Except.error tb →
      mainEdit auth db info pid upd =
        Except.ok (true,
          Page.failure (html_listify [updateFailedHeader ++ tb])
            "Edit Project")) := by
  refine ⟨?_, ?_, ?_, ?_⟩
  · intro msgs0 h0
    simp [mainEdit, h0, except_ok_bind]
  · intro msgs0 msgs1 h0 h1
    simp [mainEdit, h0, h1, except_ok_bind]
  · intro msgs0 msgs1 h0 h1 hu
    simp [mainEdit, h0, h1, hu, except_ok_bind]
  · intro msgs0 msgs1 tb h0 h1 hu
    simp [mainEdit, h0, h1, hu, except_ok_bind]

/-- Witness for C9: under the one-project fixture database, with a valid
form record, validations pass and a failing update is surfaced as the
failure page's single traceback message. -/
theorem mainEdit_spec_witness :
    mainEdit authAll dbOne infoFoo "1" (Except.error "boom") =
      Except.ok (true,
        Page.failure (html_listify [updateFailedHeader ++ "boom"])
          "Edit Project") :=
  (mainEdit_spec authAll dbOne infoFoo "1" (Except.error "boom")).2.2.2
    [] [] "boom" rfl rfl rfl
